import Mathlib

/-!
Verification of the session/state coordinator of the content-curator CLI:
the `CopilotService` class (topic, platform, model, per-content-type cache,
search-results store), its operations `generate`, `refine`,
`getMoreVariations`, `setTopic`, `setPlatform`, `switchModel`,
the response-cleanup function `cleanContent`, and the command dispatcher
`parseCommand` with its slash-command table.

External collaborators (the Exa search client and the Copilot AI chat
session) are modelled as explicit outcome parameters: each top-level
operation performs at most one search invocation and at most one AI
round-trip, so the outcome that the collaborator would produce for that
single call is passed in as an `Except` value (`Except.error msg` for a
thrown error, `Except.ok v` for a normal completion).  Every operation
additionally returns a `CallTrace` counting the search invocations and AI
round-trips it performed, so that "no network call" claims are statable.
-/

namespace ContentCurator

/-- The closed enum of content types (`types.ts`). -/
inductive ContentType
  | search
  | ideas
  | script
  | trending
  | hooks
  | full
deriving DecidableEq, Repr

/-- Supported platforms (`types.ts`). -/
inductive Platform
  | instagram
  | youtube
  | tiktok
  | all
deriving DecidableEq, Repr

/-- The model identifiers of `AVAILABLE_MODELS` in `copilot.ts`. -/
inductive ModelId
  | gpt4o
  | gpt41
  | gpt5
  | claudeSonnet4
  | o3
  | o4mini
deriving DecidableEq, Repr

/-- A search result from the Exa client (`types.ts`).  The numeric
relevance `score` is opaque to the coordinator (it is carried but never
read), so it is modelled as an integer. -/
structure SearchResult where
  title : String
  url : String
  snippet : String
  publishedDate : Option String := none
  author : Option String := none
  score : Option Int := none
deriving DecidableEq, Repr

/-- Result of a generation call (`types.ts`): `content`, a `success` flag
and an optional error message. -/
structure GenerationResult where
  content : String
  success : Bool
  error : Option String := none
deriving DecidableEq, Repr

/-- The session context tracked by the service (`types.ts`).  The
JavaScript `Map<ContentType, string>` is modelled as a function from the
closed `ContentType` enum to `Option String` (absent = `none`). -/
structure SessionContext where
  topic : String
  platform : Platform
  searchResults : Option (List SearchResult) := none
  generatedContent : ContentType → Option String

/-- The AI session handle: `null` before `initialize`, live after a
successful `createSession`, and destroyed (but still referenced by the
field) after `session.destroy()`. -/
inductive SessionHandle
  | noSession
  | alive
  | destroyed
deriving DecidableEq, Repr

/-- The mutable state of `CopilotService` relevant to the coordinator:
the session context, the currently selected model, and the session
handle. -/
structure ServiceState where
  context : SessionContext
  currentModel : ModelId
  session : SessionHandle

/-- How many collaborator calls an operation performed: search
invocations and AI round-trips. -/
structure CallTrace where
  searchCalls : Nat
  aiCalls : Nat
deriving DecidableEq, Repr

/-! ## Cache primitives (the `Map` methods used by the service) -/

/-- The `map.set(k, v)` method on the content cache. -/
def cacheSet (m : ContentType → Option String) (k : ContentType) (v : String) :
    ContentType → Option String :=
  fun t => if t = k then some v else m t

/-- The `map.delete(k)` method on the content cache. -/
def cacheDelete (m : ContentType → Option String) (k : ContentType) :
    ContentType → Option String :=
  fun t => if t = k then none else m t

/-- The `map.clear()` method on the content cache. -/
def cacheClear : ContentType → Option String := fun _ => none

/-- JavaScript truthiness of a `string | undefined` value: defined and
non-empty. -/
def optTruthy (o : Option String) : Bool := decide (o.getD "" ≠ "")

/-! ## Content cleanup (`cleanContent` in `copilot.ts`)

`cleanContent` applies three transformations to the accumulated AI
response:
1. `.replace(/^[\s\S]*?(?=##|#\s)/m, "")` — the lazy match anchored at the
   start of the string deletes everything before the first occurrence of
   `##` or `#` followed by a whitespace character; if no such occurrence
   exists the regex does not match and the string is unchanged;
2. `.replace(/\n{3,}/g, "\n\n")` — every maximal run of three or more
   newlines becomes exactly two newlines;
3. `.trim()` — leading and trailing whitespace is removed.
All three are defined here on `List Char` and wrapped into `String`. -/

/-- The whitespace class of the JavaScript `\s` regex class and of
`String.prototype.trim`, restricted to the ASCII range. -/
def isJsWs (c : Char) : Bool :=
  c = ' ' || c = '\t' || c = '\n' || c = '\r' || c = '\x0b' || c = '\x0c'

/-- Whether the list starts with a markdown heading marker in the sense of
the lookahead `(?=##|#\s)`: `##`, or `#` followed by whitespace. -/
def markerAt : List Char → Bool
  | '#' :: '#' :: _ => true
  | '#' :: c :: _ => isJsWs c
  | _ => false

/-- Scan for the first position where `markerAt` holds and return the
suffix starting there (`none` if no marker occurs). -/
def firstMarkerSuffix : List Char → Option (List Char)
  | [] => none
  | c :: rest =>
    if markerAt (c :: rest) then some (c :: rest) else firstMarkerSuffix rest

/-- Step 1 of `cleanContent`: drop the preamble before the first heading
marker; leave the input unchanged when no marker occurs. -/
def dropPreamble (l : List Char) : List Char := (firstMarkerSuffix l).getD l

/-- Step 2 of `cleanContent`, with the length of the newline run read so
far as accumulator: a maximal run of `k` newlines is emitted as
`min k 2` newlines. -/
def collapseAux : Nat → List Char → List Char
  | k, [] => List.replicate (min k 2) '\n'
  | k, c :: rest =>
    if c = '\n' then collapseAux (k + 1) rest
    else List.replicate (min k 2) '\n' ++ c :: collapseAux 0 rest

/-- Step 2 of `cleanContent`: collapse every run of three or more newlines
to exactly two. -/
def collapseNl (l : List Char) : List Char := collapseAux 0 l

/-- Step 3 of `cleanContent`: `String.prototype.trim`. -/
def trimList (l : List Char) : List Char :=
  ((l.dropWhile isJsWs).reverse.dropWhile isJsWs).reverse

/-- Function `cleanContent` on character lists: the three steps in source order. -/
def cleanList (l : List Char) : List Char := trimList (collapseNl (dropPreamble l))

/-- Function `cleanContent` from `copilot.ts`. -/
def cleanContent (s : String) : String := ⟨cleanList s.data⟩

/-! ## Command dispatcher (`parseCommand` in `ui/prompts.ts`) -/

/-- The closed command variant produced by the dispatcher
(`ui/prompts.ts`). -/
inductive Command
  | content (contentType : ContentType)
  | platform
  | topic
  | model
  | copy
  | last
  | clear
  | help
  | quit
  | chat (message : String)
deriving DecidableEq, Repr

/-- The fixed slash-command table `COMMAND_MAP` of `ui/prompts.ts`,
as a lookup function (`none` = key absent). -/
def commandMap : String → Option Command
  | "/search" => some (.content .search)
  | "/research" => some (.content .search)
  | "/ideas" => some (.content .ideas)
  | "/idea" => some (.content .ideas)
  | "/script" => some (.content .script)
  | "/scripts" => some (.content .script)
  | "/trending" => some (.content .trending)
  | "/trends" => some (.content .trending)
  | "/hooks" => some (.content .hooks)
  | "/hook" => some (.content .hooks)
  | "/full" => some (.content .full)
  | "/all" => some (.content .full)
  | "/package" => some (.content .full)
  | "/platform" => some .platform
  | "/p" => some .platform
  | "/topic" => some .topic
  | "/t" => some .topic
  | "/model" => some .model
  | "/m" => some .model
  | "/copy" => some .copy
  | "/c" => some .copy
  | "/last" => some .last
  | "/back" => some .last
  | "/clear" => some .clear
  | "/cls" => some .clear
  | "/help" => some .help
  | "/h" => some .help
  | "/?" => some .help
  | "/quit" => some .quit
  | "/exit" => some .quit
  | "/q" => some .quit
  | _ => none

/-- The trimming step `inputText.trim()`. -/
def strTrim (s : String) : String := ⟨trimList s.data⟩

/-- The lower-casing step `trimmed.toLowerCase()` (the command keys are ASCII, where
`Char.toLower` agrees with the JavaScript conversion). -/
def strLower (s : String) : String := ⟨s.data.map Char.toLower⟩

/-- The slash test `trimmed.startsWith("/")`. -/
def startsWithSlash (s : String) : Bool :=
  match s.data with
  | '/' :: _ => true
  | _ => false

/-- Function `parseCommand` from `ui/prompts.ts`: trim, look the lower-cased text
up in the table, then fall back to the chat variant (empty message for
empty input, the trimmed text otherwise, with the unknown-slash branch
kept separate as in the source). -/
def parseCommand (inputText : String) : Command :=
  let trimmed := strTrim inputText
  let lowered := strLower trimmed
  match commandMap lowered with
  | some cmd => cmd
  | none =>
    if trimmed = "" then .chat ""
    else if startsWithSlash trimmed then .chat trimmed
    else .chat trimmed

/-! ## Prompt templates (`prompts/templates.ts`)

The template-literal interpolations of the source become explicit string
concatenation.  The prompt text itself is opaque to every property below
(it is handed to the AI collaborator, whose reply is an explicit outcome
parameter), but the builders are kept faithful to the source. -/

/-- An apostrophe, as a one-character string (used inside template
text). -/
def apos : String := ⟨['\'']⟩

/-- The string value of a `Platform` (the TypeScript union is of string
literals). -/
def platformStr : Platform → String
  | .instagram => "instagram"
  | .youtube => "youtube"
  | .tiktok => "tiktok"
  | .all => "all"

/-- The string value of a `ContentType`. -/
def contentTypeStr : ContentType → String
  | .search => "search"
  | .ideas => "ideas"
  | .script => "script"
  | .trending => "trending"
  | .hooks => "hooks"
  | .full => "full"

/-- Table `PLATFORM_GUIDELINES` from `templates.ts`. -/
def platformGuidelines : Platform → String
  | .instagram =>
    "\n## Instagram Reels Guidelines\n- Optimal length: 15-30 seconds (can go up to 90s for tutorials)\n" ++
    "- Square (1:1) or vertical (9:16) format\n- Text overlays should be bold and readable\n" ++
    "- Use trending audio when possible\n- Focus on aesthetic visual appeal\n" ++
    "- Include call-to-action for saves and shares\n- Hashtag strategy: 5-10 relevant hashtags\n"
  | .youtube =>
    "\n## YouTube Shorts Guidelines\n- Optimal length: 30-60 seconds\n- Vertical format (9:16)\n" ++
    "- Strong hook in first 3 seconds is critical\n- Can be more educational/informational\n" ++
    "- Titles matter more than other platforms\n- Focus on high retention throughout\n" ++
    "- End with a subscribe reminder or question\n"
  | .tiktok =>
    "\n## TikTok Guidelines\n- Optimal length: 15-60 seconds\n- Raw, authentic content performs well\n" ++
    "- Trend participation is key\n- Use trending sounds and effects\n" ++
    "- Duets and stitches for engagement\n- Fast-paced editing preferred\n" ++
    "- Controversial or opinion-based hooks work well\n"
  | .all =>
    "\n## Cross-Platform Guidelines\n- Create content that can be repurposed across platforms\n" ++
    "- Lead with a universal hook\n- Keep core message in first 30 seconds\n" ++
    "- Adjust captions/hashtags per platform\n- Consider different audience demographics\n"

/-- The `${additionalContext ? ... : ""}` suffix appearing at the end of
every content template (empty string is falsy in JavaScript). -/
def additionalContextSuffix (ac : Option String) : String :=
  match ac with
  | some s => if s = "" then "" else "\nAdditional context: " ++ s
  | none => ""

/-- Function `getContentPrompt` from `templates.ts`: the content-type-specific
template with topic, platform guidelines and optional additional context
interpolated. -/
def getContentPrompt (contentType : ContentType) (topic : String)
    (platform : Platform) (additionalContext : Option String) : String :=
  let platformGuide := platformGuidelines platform
  match contentType with
  | .search =>
    "\nResearch the topic \"" ++ topic ++ "\" using real-time web search.\n\n" ++
    "First, call web_search_exa to find:\n1. Latest news and developments\n" ++
    "2. Trending discussions and controversies\n3. Popular content about this topic\n" ++
    "4. Expert opinions and insights\n\nThen synthesize your findings:\n\n" ++
    "## 🔍 Research Results: " ++ topic ++ "\n\n" ++
    "### 📰 Latest News & Developments\n[Key recent events and updates - with sources]\n\n" ++
    "### 🔥 Trending Angles\n[What aspects are getting the most attention right now]\n\n" ++
    "### 💬 Public Sentiment\n[What people are saying, common opinions, controversies]\n\n" ++
    "### 📊 Key Statistics\n[Relevant numbers and data points]\n\n" ++
    "### 🔗 Top Sources\n[List the most valuable sources found]\n\n" ++
    additionalContextSuffix additionalContext ++ "\n"
  | .ideas =>
    "\nBased on research about \"" ++ topic ++ "\", generate 5 viral short-form content ideas.\n\n" ++
    "First, call web_search_exa to understand:\n- What" ++ apos ++ "s currently trending about this topic\n" ++
    "- What angles are working for other creators\n- Any news or updates that create content opportunities\n\n" ++
    platformGuide ++ "\n\nThen generate exactly 5 content ideas:\n\n" ++
    "## 💡 Content Ideas: " ++ topic ++ "\n\n" ++
    "### Idea 1: [Catchy Title]\n**Hook:** [First 3 seconds - the attention grabber]\n" ++
    "**Angle:** [The unique perspective or approach]\n**Why it works:** [Platform-specific reasoning]\n" ++
    "**Trending potential:** ⭐⭐⭐⭐⭐ (rate 1-5)\n\n### Idea 2: [Catchy Title]\n...\n\n" ++
    "[Continue for all 5 ideas]\n\n---\n" ++
    "**Best for " ++ platformStr platform ++ ":** [Recommend which idea fits best]\n\n" ++
    additionalContextSuffix additionalContext ++ "\n"
  | .script =>
    "\nCreate a complete short-form video script for \"" ++ topic ++ "\".\n\n" ++
    "First, call web_search_exa to gather:\n- Current facts and statistics\n" ++
    "- Trending angles on this topic\n- Popular formats being used\n\n" ++
    platformGuide ++ "\n\nThen create a detailed script:\n\n" ++
    "## 📝 Reel Script: " ++ topic ++ "\n\n" ++
    "### 🎣 HOOK (0-3 seconds)\n[Write the exact opening line - must stop the scroll]\n\n" ++
    "### 📖 BODY (3-45 seconds)\n**Beat 1:** [First key point with exact dialogue]\n" ++
    "**Beat 2:** [Second key point with exact dialogue]\n**Beat 3:** [Third key point with exact dialogue]\n\n" ++
    "### 🎯 CTA (Final 5-10 seconds)\n[Call to action - what you want viewers to do]\n\n---\n\n" ++
    "### 🎬 Recording Suggestions\n**Camera Setup:** [Angles, framing, movement]\n" ++
    "**B-Roll Ideas:** [Supplementary footage to capture]\n**On-Screen Text:** [Key text overlays with timing]\n" ++
    "**Transitions:** [Recommended transition styles]\n\n" ++
    "### 🎨 Visual Style\n**Aesthetic:** [Overall look and feel]\n**Color Palette:** [Suggested colors]\n" ++
    "**Font Style:** [For text overlays]\n**Lighting:** [Lighting recommendations]\n\n" ++
    "### 🎵 Audio Suggestions\n**Music Vibe:** [Type of background music]\n" ++
    "**Trending Sounds:** [If applicable, suggest trending audio]\n**Voiceover Tips:** [Tone, pacing, energy level]\n\n" ++
    "### #️⃣ Hashtags\n[10 relevant hashtags for " ++ platformStr platform ++ "]\n\n" ++
    "### ⏱️ Estimated Duration: [X seconds]\n\n" ++
    additionalContextSuffix additionalContext ++ "\n"
  | .trending =>
    "\nFind trending topics and viral content opportunities related to \"" ++ topic ++ "\".\n\n" ++
    "Call web_search_exa to discover:\n1. Trending hashtags and challenges\n" ++
    "2. Viral videos in this niche (last 7 days)\n3. Emerging trends before they peak\n" ++
    "4. Controversy or debate topics\n\n" ++
    platformGuide ++ "\n\n" ++
    "## 🔥 Trending Report: " ++ topic ++ "\n\n" ++
    "### 📈 Hot Right Now\n[Topics at peak virality - act fast]\n\n" ++
    "### 🌱 Rising Trends\n[Emerging trends with growth potential]\n\n" ++
    "### 💥 Controversy & Debate\n[Polarizing topics driving engagement]\n\n" ++
    "### 🎵 Trending Audio/Formats\n[Popular sounds and video formats to use]\n\n" ++
    "### ⚡ Quick Win Ideas\n[5 content ideas you could create TODAY]\n\n" ++
    "| Trend | Virality | Difficulty | Best Platform |\n|-------|----------|------------|---------------|\n" ++
    "| [Trend 1] | 🔥🔥🔥 | Easy | " ++ platformStr platform ++ " |\n" ++
    "| [Trend 2] | 🔥🔥 | Medium | " ++ platformStr platform ++ " |\n...\n\n" ++
    additionalContextSuffix additionalContext ++ "\n"
  | .hooks =>
    "\nGenerate 10 scroll-stopping hooks for \"" ++ topic ++ "\".\n\n" ++
    "First, call web_search_exa to understand:\n- What" ++ apos ++ "s getting engagement on this topic\n" ++
    "- Common pain points and curiosities\n- Trending phrases and formats\n\n" ++
    platformGuide ++ "\n\n" ++
    "## 🎣 Hook Collection: " ++ topic ++ "\n\n" ++
    "### Curiosity Hooks\n1. \"[Hook that creates a curiosity gap]\"\n2. \"[Hook that makes viewers NEED to know more]\"\n\n" ++
    "### Controversial Hooks\n3. \"[Bold statement or hot take]\"\n4. \"[Challenge common belief]\"\n\n" ++
    "### Story Hooks\n5. \"[Personal story opener]\"\n6. \"[Transformation story starter]\"\n\n" ++
    "### Educational Hooks\n7. \"[Surprising fact or statistic]\"\n8. \"[Common mistake reveal]\"\n\n" ++
    "### Trend Hooks\n9. \"[Reference to current trend/event]\"\n10. \"[Platform-native hook format]\"\n\n---\n\n" ++
    "**🏆 Best Overall Hook:** [Pick the strongest one]\n**Why it works:** [Explain the psychology]\n\n" ++
    additionalContextSuffix additionalContext ++ "\n"
  | .full =>
    "\nCreate a comprehensive content package for \"" ++ topic ++ "\".\n\n" ++
    "First, thoroughly research using web_search_exa:\n- Latest news and trends\n" ++
    "- Viral content examples\n- Audience interests and pain points\n- Competitor content analysis\n\n" ++
    platformGuide ++ "\n\n" ++
    "## 📦 Complete Content Package: " ++ topic ++ "\n\n" ++
    "### 🔍 Research Summary\n[Key insights from web search]\n\n" ++
    "### 💡 Top 3 Content Ideas\n[Brief overview of best angles]\n\n" ++
    "### 📝 Featured Script\n[Complete script for the best idea]\n\n" ++
    "### 🎣 Hook Variations\n[5 alternative hooks to test]\n\n" ++
    "### 🎬 Recording Checklist\n- [ ] [Equipment needed]\n- [ ] [Location/setup]\n" ++
    "- [ ] [Props or visuals]\n- [ ] [Wardrobe considerations]\n\n" ++
    "### 📊 Posting Strategy\n**Best time to post:** [Based on platform]\n**Caption:** [Ready-to-use caption]\n" ++
    "**Hashtags:** [Optimized hashtag set]\n**Cross-posting:** [Platform adaptation tips]\n\n" ++
    additionalContextSuffix additionalContext ++ "\n"

/-- Function `getRefinementPrompt` from `templates.ts`. -/
def getRefinementPrompt (originalContent refinementRequest : String) : String :=
  "\nBased on this previously generated content:\n\n" ++ originalContent ++
  "\n\nThe user wants to refine it with this feedback:\n\"" ++ refinementRequest ++
  "\"\n\nPlease update the content accordingly while maintaining the same format and quality.\n"

/-- Function `getMoreVariationsPrompt` from `templates.ts`. -/
def getMoreVariationsPrompt (contentType : ContentType)
    (existingContent topic : String) : String :=
  "\nYou previously generated this " ++ contentTypeStr contentType ++
  " content for \"" ++ topic ++ "\":\n\n" ++ existingContent ++
  "\n\nGenerate 3 MORE unique variations that are different from the above but equally engaging.\n" ++
  "Use web_search_exa to find additional angles or fresh information.\n" ++
  "Maintain the same format and quality standards.\n"

/-! ## Service operations (`CopilotService` in `copilot.ts`) -/

/-- Rendering of a stored publication date by
`new Date(d).toLocaleDateString()`.  The rendering is locale- and
environment-dependent and never inspected by the coordinator, so it is
modelled as the identity on the stored string. -/
def localeDateString (d : String) : String := d

/-- Function `formatResultsForLLM` from `exa.ts`: number the results and join them
with a separator line (empty `publishedDate` and `author` strings are
falsy in JavaScript, like absent ones). -/
def formatResultsForLLM (results : List SearchResult) : String :=
  if results = [] then "No search results found."
  else
    String.intercalate "\n---\n"
      (results.enum.map (fun p =>
        let i := p.1
        let r := p.2
        let date := if optTruthy r.publishedDate then
            " (" ++ localeDateString (r.publishedDate.getD "") ++ ")" else ""
        let author := if optTruthy r.author then " by " ++ r.author.getD "" else ""
        "[" ++ toString (i + 1) ++ "] " ++ r.title ++ date ++ author ++
          "\nURL: " ++ r.url ++ "\n" ++ r.snippet ++ "\n"))

/-- Which Exa search entry point `performSearch` selects
(`"general" | "trending" | "ideas"`). -/
inductive SearchMode
  | general
  | trending
  | ideas
deriving DecidableEq, Repr

/-- Function `performSearch` from `copilot.ts`.  Flag `exaConfigured` is whether the
Exa API key is present; `searchOutcome` is what the selected Exa entry
point would produce for this invocation (`Except.error` = thrown search
error, caught and downgraded).  Returns the text handed to the prompt,
the updated state, and the number of search invocations made.  The
stored `searchResults` are updated only on a successful search. -/
def performSearch (st : ServiceState) (mode : SearchMode) (exaConfigured : Bool)
    (searchOutcome : Except String (List SearchResult)) :
    String × ServiceState × Nat :=
  if !exaConfigured then
    ("Note: Using general knowledge. For better results, set EXA_API_KEY in .env file.", st, 0)
  else
    match searchOutcome with
    | .ok results =>
      (formatResultsForLLM results,
       { st with context := { st.context with searchResults := some results } }, 1)
    | .error _ =>
      ("Using general knowledge about \"" ++ st.context.topic ++ "\".", st, 1)

/-- Function `sendPrompt` from `copilot.ts`.  Parameter `ai` is the outcome of the single
`session.sendAndWait` round-trip: `Except.error msg` when it throws
(with `msg` the thrown error message), `Except.ok raw` when it completes
with `raw` the accumulated streamed text.  The cleaned response is cached
under `contentType` only when a content type was given and the cleaned
text is non-empty (`if (contentType && content)`). -/
def sendPrompt (st : ServiceState) (prompt : String)
    (contentType : Option ContentType) (ai : Except String String) :
    GenerationResult × ServiceState × Nat :=
  if st.session = .noSession then
    ({ content := "", success := false, error := some "Session not initialized" }, st, 0)
  else
    match ai with
    | .error msg =>
      ({ content := "", success := false, error := some msg }, st, 1)
    | .ok raw =>
      let content := cleanContent raw
      let st' :=
        match contentType with
        | some t =>
          if content ≠ "" then
            { st with context := { st.context with
                generatedContent := cacheSet st.context.generatedContent t content } }
          else st
        | none => st
      ({ content := content, success := true, error := none }, st', 1)

/-- Function `generate` from `copilot.ts`: optionally drop the cached entry
(`regenerate`), short-circuit on a (truthy) cache hit, otherwise search,
build the prompt, and send it with the content type for caching. -/
def generate (st : ServiceState) (contentType : ContentType) (regenerate : Bool)
    (additionalContext : Option String) (exaConfigured : Bool)
    (searchOutcome : Except String (List SearchResult))
    (ai : Except String String) :
    GenerationResult × ServiceState × CallTrace :=
  let st0 := if regenerate then
      { st with context := { st.context with
          generatedContent := cacheDelete st.context.generatedContent contentType } }
    else st
  let cached := st0.context.generatedContent contentType
  if optTruthy cached && !regenerate then
    ({ content := cached.getD "", success := true, error := none }, st0, ⟨0, 0⟩)
  else
    let mode : SearchMode :=
      if contentType = .trending then .trending
      else if contentType = .ideas then .ideas
      else .general
    let ps := performSearch st0 mode exaConfigured searchOutcome
    let basePrompt := getContentPrompt contentType ps.2.1.context.topic
      ps.2.1.context.platform additionalContext
    let promptWithSearch := ps.1 ++ "\n\n---\n\n" ++ basePrompt
    let sp := sendPrompt ps.2.1 promptWithSearch (some contentType) ai
    (sp.1, sp.2.1, ⟨ps.2.2, sp.2.2⟩)

/-- Function `refine` from `copilot.ts`: requires a (truthy) cached entry for the
content type, else fails without any collaborator call. -/
def refine (st : ServiceState) (contentType : ContentType)
    (refinementRequest : String) (ai : Except String String) :
    GenerationResult × ServiceState × CallTrace :=
  let lastContent := st.context.generatedContent contentType
  if !optTruthy lastContent then
    ({ content := "", success := false,
       error := some "No content to refine. Generate content first." }, st, ⟨0, 0⟩)
  else
    let prompt := getRefinementPrompt (lastContent.getD "") refinementRequest
    let sp := sendPrompt st prompt (some contentType) ai
    (sp.1, sp.2.1, ⟨0, sp.2.2⟩)

/-- Function `getMoreVariations` from `copilot.ts`: requires a (truthy) cached
entry; note that the prompt is sent with the content type, so a
successful non-empty response is cached exactly as in `refine`. -/
def getMoreVariations (st : ServiceState) (contentType : ContentType)
    (ai : Except String String) :
    GenerationResult × ServiceState × CallTrace :=
  let existingContent := st.context.generatedContent contentType
  if !optTruthy existingContent then
    ({ content := "", success := false,
       error := some "No existing content. Generate content first." }, st, ⟨0, 0⟩)
  else
    let prompt := getMoreVariationsPrompt contentType (existingContent.getD "")
      st.context.topic
    let sp := sendPrompt st prompt (some contentType) ai
    (sp.1, sp.2.1, ⟨0, sp.2.2⟩)

/-- Function `setTopic` from `copilot.ts`: store the topic, clear the content
cache, drop the stored search results. -/
def setTopic (st : ServiceState) (topic : String) : ServiceState :=
  { st with context := { st.context with
      topic := topic
      generatedContent := cacheClear
      searchResults := none } }

/-- Function `setPlatform` from `copilot.ts`: store the platform, touch nothing
else. -/
def setPlatform (st : ServiceState) (platform : Platform) : ServiceState :=
  { st with context := { st.context with platform := platform } }

/-- Function `switchModel` from `copilot.ts`.  Flag `createOk` is whether the
`createSession` call for the new model succeeds.  The source first
destroys the existing session (the field keeps referencing the destroyed
handle), then assigns `currentModel`, then attempts `createSession`; a
failure is rethrown with no rollback.  Returns the success flag and the
resulting state. -/
def switchModel (st : ServiceState) (newModel : ModelId) (createOk : Bool) :
    Bool × ServiceState :=
  if newModel = st.currentModel then (true, st)
  else
    let afterDestroy : ServiceState :=
      { st with session := if st.session = .noSession then .noSession else .destroyed }
    let afterModel : ServiceState := { afterDestroy with currentModel := newModel }
    if createOk then (true, { afterModel with session := .alive })
    else (false, afterModel)

/-! ## Blank-line and whitespace lemmas about `cleanContent` -/



/-- Whether the list contains three consecutive newline characters
(equivalently, a run of more than one blank line). -/
def hasTriple : List Char → Bool
  | a :: b :: c :: rest => (a == '\n' && b == '\n' && c == '\n') || hasTriple (b :: c :: rest)
  | _ => false

theorem hasTriple_cons₃ (a b c : Char) (rest : List Char) :
    hasTriple (a :: b :: c :: rest) =
      ((a == '\n' && b == '\n' && c == '\n') || hasTriple (b :: c :: rest)) := rfl

theorem hasTriple_cons_false {c : Char} {tl : List Char} (hc : c ≠ '\n')
    (htl : hasTriple tl = false) : hasTriple (c :: tl) = false := by
  match tl with
  | [] => rfl
  | [b] => rfl
  | b :: d :: r =>
    rw [hasTriple_cons₃, htl]
    simp [hc]

theorem hasTriple_nl_cons {c : Char} {tl : List Char} (hc : c ≠ '\n')
    (h : hasTriple (c :: tl) = false) : hasTriple ('\n' :: c :: tl) = false := by
  match tl with
  | [] => rfl
  | d :: r =>
    rw [hasTriple_cons₃, h]
    simp [hc]

theorem hasTriple_nl_nl_cons {c : Char} {tl : List Char} (hc : c ≠ '\n')
    (h : hasTriple (c :: tl) = false) : hasTriple ('\n' :: '\n' :: c :: tl) = false := by
  rw [hasTriple_cons₃, hasTriple_nl_cons hc h]
  simp [hc]

theorem collapseAux_hasTriple : ∀ (l : List Char) (k : Nat),
    hasTriple (collapseAux k l) = false := by
  intro l
  induction l with
  | nil =>
    intro k
    match k with
    | 0 => rfl
    | 1 => rfl
    | k + 2 =>
      rw [collapseAux, Nat.min_eq_right (by omega)]
      rfl
  | cons c rest ih =>
    intro k
    rw [collapseAux]
    by_cases hc : c = '\n'
    · rw [if_pos hc]; exact ih (k + 1)
    · rw [if_neg hc]
      have base : hasTriple (c :: collapseAux 0 rest) = false :=
        hasTriple_cons_false hc (ih 0)
      match k with
      | 0 => simpa using base
      | 1 => simpa using hasTriple_nl_cons hc base
      | k + 2 =>
        rw [Nat.min_eq_right (by omega)]
        simpa using hasTriple_nl_nl_cons hc base

theorem hasTriple_of_decomp {l s t : List Char}
    (h : l = s ++ '\n' :: '\n' :: '\n' :: t) : hasTriple l = true := by
  subst h
  induction s with
  | nil =>
    rw [List.nil_append, hasTriple_cons₃]
    simp
  | cons a s ih =>
    have : ∀ m : List Char, hasTriple m = true → hasTriple (a :: m) = true := by
      intro m hm
      match m with
      | [] => simp [hasTriple] at hm
      | [b] => simp [hasTriple] at hm
      | b :: d :: r => rw [hasTriple_cons₃, hm]; simp
    exact this _ ih

theorem decomp_of_hasTriple : ∀ l : List Char, hasTriple l = true →
    ∃ s t, l = s ++ '\n' :: '\n' :: '\n' :: t
  | [], h => by simp [hasTriple] at h
  | [a], h => by simp [hasTriple] at h
  | [a, b], h => by simp [hasTriple] at h
  | a :: b :: c :: r, h => by
    rw [hasTriple_cons₃] at h
    rcases hor : (a == '\n' && b == '\n' && c == '\n') with _ | _
    · rw [hor, Bool.false_or] at h
      obtain ⟨s, t, hst⟩ := decomp_of_hasTriple (b :: c :: r) h
      exact ⟨a :: s, t, by rw [List.cons_append, ← hst]⟩
    · obtain ⟨⟨ha, hb⟩, hc⟩ : (a = '\n' ∧ b = '\n') ∧ c = '\n' := by
        simpa [Bool.and_eq_true] using hor
      exact ⟨[], r, by rw [ha, hb, hc]; rfl⟩

theorem dropWhile_isSuffix (p : Char → Bool) :
    ∀ l : List Char, ∃ s, s ++ l.dropWhile p = l
  | [] => ⟨[], rfl⟩
  | c :: r => by
    rcases hc : p c with _ | _
    · exact ⟨[], by simp [List.dropWhile_cons, hc]⟩
    · obtain ⟨s, hs⟩ := dropWhile_isSuffix p r
      exact ⟨c :: s, by simp [List.dropWhile_cons, hc, hs]⟩

theorem trimList_decomp (l : List Char) : ∃ s t, l = s ++ trimList l ++ t := by
  obtain ⟨s, hs⟩ := dropWhile_isSuffix isJsWs l
  obtain ⟨u, hu⟩ := dropWhile_isSuffix isJsWs (l.dropWhile isJsWs).reverse
  refine ⟨s, u.reverse, ?_⟩
  have hm : l.dropWhile isJsWs =
      ((l.dropWhile isJsWs).reverse.dropWhile isJsWs).reverse ++ u.reverse := by
    calc l.dropWhile isJsWs = (l.dropWhile isJsWs).reverse.reverse := by
          rw [List.reverse_reverse]
    _ = (u ++ (l.dropWhile isJsWs).reverse.dropWhile isJsWs).reverse := by rw [hu]
    _ = ((l.dropWhile isJsWs).reverse.dropWhile isJsWs).reverse ++ u.reverse := by
          rw [List.reverse_append]
  conv_lhs => rw [← hs, hm]
  rw [trimList, List.append_assoc]

theorem hasTriple_cleanList (l : List Char) : hasTriple (cleanList l) = false := by
  rcases hx : hasTriple (cleanList l) with _ | _
  · rfl
  · exfalso
    obtain ⟨s, t, hst⟩ := decomp_of_hasTriple _ hx
    obtain ⟨a, b, hab⟩ := trimList_decomp (collapseNl (dropPreamble l))
    have htrue : hasTriple (collapseNl (dropPreamble l)) = true := by
      refine hasTriple_of_decomp (s := a ++ s) (t := t ++ b) ?_
      rw [hab]
      have : trimList (collapseNl (dropPreamble l)) = s ++ '\n' :: '\n' :: '\n' :: t := hst
      rw [this]
      simp [List.append_assoc]
    rw [collapseNl, collapseAux_hasTriple] at htrue
    exact Bool.false_ne_true htrue



/-- Whether neither the first nor the last character of the list is
whitespace (vacuously true for the empty list). -/
def edgesClean (l : List Char) : Bool :=
  !(isJsWs (l.headD '#')) && !(isJsWs (l.getLastD '#'))

theorem head_dropWhile_clean : ∀ l : List Char,
    isJsWs ((l.dropWhile isJsWs).headD '#') = false
  | [] => by decide
  | c :: r => by
    rcases hc : isJsWs c with _ | _
    · simp [List.dropWhile_cons, hc]
    · simpa [List.dropWhile_cons, hc] using head_dropWhile_clean r

theorem getLast_trimList_clean (l : List Char) :
    isJsWs ((trimList l).getLastD '#') = false := by
  rw [trimList, List.getLastD_eq_getLast?, List.getLast?_reverse,
    ← List.headD_eq_head?]
  exact head_dropWhile_clean _

theorem head_trimList_clean (l : List Char) :
    isJsWs ((trimList l).headD '#') = false := by
  rw [trimList, List.headD_eq_head?, List.head?_reverse]
  rcases hd : (l.dropWhile isJsWs).reverse.dropWhile isJsWs with _ | ⟨c, r⟩
  · simp [hd]
    decide
  · obtain ⟨u, hu⟩ := dropWhile_isSuffix isJsWs (l.dropWhile isJsWs).reverse
    rw [hd] at hu
    have h1 : (c :: r).getLast? = (l.dropWhile isJsWs).reverse.getLast? := by
      rw [← hu, List.getLast?_append_of_ne_nil _ (by simp)]
    rw [h1, List.getLast?_reverse, ← List.headD_eq_head?]
    exact head_dropWhile_clean l

theorem edgesClean_trimList (l : List Char) : edgesClean (trimList l) = true := by
  rw [edgesClean, head_trimList_clean, getLast_trimList_clean]
  rfl

theorem trimList_eq_self {l : List Char} (h : edgesClean l = true) :
    trimList l = l := by
  obtain ⟨h1, h2⟩ : (!(isJsWs (l.headD '#'))) = true ∧ (!(isJsWs (l.getLastD '#'))) = true := by
    simpa [edgesClean, Bool.and_eq_true] using h
  rw [Bool.not_eq_true'] at h1 h2
  have e1 : l.dropWhile isJsWs = l := by
    cases l with
    | nil => rfl
    | cons c r =>
      rw [List.dropWhile_cons, if_neg]
      simp only [List.headD] at h1
      simp [h1]
  have e2 : l.reverse.dropWhile isJsWs = l.reverse := by
    rcases hrev : l.reverse with _ | ⟨c, r⟩
    · rfl
    · rw [List.dropWhile_cons, if_neg]
      have : l.getLastD '#' = c := by
        rw [List.getLastD_eq_getLast?, ← List.head?_reverse, hrev]
        rfl
      rw [this] at h2
      simp [h2]
  rw [trimList, e1, e2, List.reverse_reverse]

theorem trimList_idem (l : List Char) : trimList (trimList l) = trimList l :=
  trimList_eq_self (edgesClean_trimList l)

theorem strTrim_idem (s : String) : strTrim (strTrim s) = strTrim s := by
  rw [strTrim, strTrim]
  exact congrArg String.mk (trimList_idem s.data)

theorem edgesClean_cleanList (l : List Char) : edgesClean (cleanList l) = true :=
  edgesClean_trimList _


/-! ## Concrete states used by witnesses and counterexamples -/

/-- The empty content cache. -/
def emptyCache : ContentType → Option String := fun _ => none

/-- A live service state with an empty cache. -/
def baseState : ServiceState :=
  { context := { topic := "ai tools", platform := .all, searchResults := none,
                 generatedContent := emptyCache },
    currentModel := .gpt4o, session := .alive }

/-- A live service state whose cache holds a script entry. -/
def cachedState : ServiceState :=
  { context := { topic := "ai tools", platform := .all, searchResults := none,
                 generatedContent := cacheSet emptyCache .script "## Old script" },
    currentModel := .gpt4o, session := .alive }

/-- C4: `cleanContent` discards the preamble before the first heading
marker, collapses runs of three or more newlines (two or more blank
lines) to a single blank line, and trims the ends: on the specified
example the output starts at `## Title` with no run of more than one
blank line, and in general the cleaned output never contains three
consecutive newlines and never starts or ends in whitespace. -/
theorem c4_cleanContent :
    cleanContent "Intro chatter\n## Title\nBody\n\n\n\nmore" = "## Title\nBody\n\nmore" ∧
    (cleanContent "Intro chatter\n## Title\nBody\n\n\n\nmore").data.take 8 = "## Title".data ∧
    cleanContent "  ## T\nx\n\n\n" = "## T\nx" ∧
    (∀ s : String, hasTriple (cleanContent s).data = false) ∧
    (∀ s : String, edgesClean (cleanContent s).data = true) := by
  refine ⟨by decide, by decide, by decide, ?_, ?_⟩
  · intro s
    exact hasTriple_cleanList s.data
  · intro s
    exact edgesClean_cleanList s.data

/-- C5: the code bug behind the failed-model-switch claim, evaluated at a
concrete failing input: starting from a live `gpt-4o` session, a
`switchModel` to `gpt-5` whose `createSession` fails leaves the service
with `currentModel` already switched to `gpt-5` and the session
destroyed with no replacement — not with the previous model and session
active. -/
theorem c5_failed_switch :
    baseState.currentModel = .gpt4o ∧
    baseState.session = .alive ∧
    (switchModel baseState .gpt5 false).1 = false ∧
    (switchModel baseState .gpt5 false).2.currentModel = .gpt5 ∧
    (switchModel baseState .gpt5 false).2.session = .destroyed := by
  decide

/-- C7: `refine` on a content type with no cached entry fails immediately
with the no-content error, makes no search or AI call, and returns the
state unchanged. -/
theorem c7_refine_requires_cache (s : ServiceState) (t : ContentType)
    (fb : String) (ai : Except String String)
    (h : s.context.generatedContent t = none) :
    refine s t fb ai =
      ({ content := "", success := false,
         error := some "No content to refine. Generate content first." }, s, ⟨0, 0⟩) := by
  unfold refine
  rw [h]
  simp [optTruthy]

/-- Witness for C7 at a concrete state with an empty cache. -/
theorem c7_witness :
    refine baseState .script "make it shorter" (.ok "ignored") =
      ({ content := "", success := false,
         error := some "No content to refine. Generate content first." }, baseState, ⟨0, 0⟩) :=
  c7_refine_requires_cache baseState .script "make it shorter" (.ok "ignored") rfl

/-- C9: `setPlatform` updates only the platform: every cache entry, the
topic, the stored search results, the model and the session are
unchanged. -/
theorem c9_setPlatform_frame (s : ServiceState) (p : Platform) :
    (setPlatform s p).context.platform = p ∧
    (∀ t, (setPlatform s p).context.generatedContent t = s.context.generatedContent t) ∧
    (setPlatform s p).context.topic = s.context.topic ∧
    (setPlatform s p).context.searchResults = s.context.searchResults ∧
    (setPlatform s p).currentModel = s.currentModel ∧
    (setPlatform s p).session = s.session :=
  ⟨rfl, fun _ => rfl, rfl, rfl, rfl, rfl⟩


/-- C1 counterexample: a successful `moreVariations` call on a cached
`script` entry does overwrite the cache entry — `getMoreVariations`
passes the content type to `sendPrompt`, which caches the cleaned
response exactly as `refine` does. -/
theorem c1_counterexample :
    (getMoreVariations cachedState .script (.ok "## Three new variations")).1.success = true ∧
    cachedState.context.generatedContent .script = some "## Old script" ∧
    (getMoreVariations cachedState .script
        (.ok "## Three new variations")).2.1.context.generatedContent .script
      = some "## Three new variations" := by
  decide

/-- C1 amended: a `moreVariations` call on a cached entry that completes
with a non-empty cleaned response returns that response and OVERWRITES
the cached entry with it; only a thrown AI error leaves the cache (and
the whole state) unchanged. -/
theorem c1_overwrites (s : ServiceState) (t : ContentType) (v raw : String)
    (hv : s.context.generatedContent t = some v) (hv' : v ≠ "")
    (hs : s.session = .alive) (hraw : cleanContent raw ≠ "") :
    (getMoreVariations s t (.ok raw)).1 =
      { content := cleanContent raw, success := true, error := none } ∧
    (getMoreVariations s t (.ok raw)).2.1.context.generatedContent t
      = some (cleanContent raw) ∧
    (∀ msg, (getMoreVariations s t (.error msg)).2.1 = s) := by
  unfold getMoreVariations
  rw [hv]
  simp [optTruthy, hv', sendPrompt, hs, hraw, cacheSet]

/-- Witness for C1 at a concrete cached state. -/
theorem c1_witness :
    (getMoreVariations cachedState .script (.ok "## New variations")).1 =
      { content := cleanContent "## New variations", success := true, error := none } ∧
    (getMoreVariations cachedState .script
        (.ok "## New variations")).2.1.context.generatedContent .script
      = some (cleanContent "## New variations") ∧
    (∀ msg, (getMoreVariations cachedState .script (.error msg)).2.1 = cachedState) :=
  c1_overwrites cachedState .script "## Old script" "## New variations"
    rfl (by decide) rfl (by decide)

/-- C8 counterexample: for unrecognized slash-prefixed input the
dispatcher returns the chat variant with the TRIMMED text, not the raw
original input. -/
theorem c8_counterexample :
    parseCommand " /frobnicate " = Command.chat "/frobnicate" ∧
    parseCommand " /frobnicate " ≠ Command.chat " /frobnicate " := by
  decide

/-- C8 amended: `parseCommand` is a pure total function implementing, in
order: trim; case-insensitive lookup in the fixed alias table
(`/Ideas` and `/idea` both map to the ideas content variant); empty
trimmed input gives the empty chat variant; unrecognized slash-prefixed
input gives a chat variant carrying the TRIMMED text (case preserved);
any other input gives a chat variant with the trimmed text.  Trimming
first means the result is invariant under pre-trimming the input. -/
theorem c8_parse_rules :
    parseCommand "/Ideas" = Command.content .ideas ∧
    parseCommand "/idea" = Command.content .ideas ∧
    parseCommand "/ideas" = Command.content .ideas ∧
    parseCommand "" = Command.chat "" ∧
    parseCommand "   " = Command.chat "" ∧
    parseCommand " /frobnicate " = Command.chat "/frobnicate" ∧
    parseCommand "hello there" = Command.chat "hello there" ∧
    parseCommand "  Hello There  " = Command.chat "Hello There" ∧
    (∀ s : String, parseCommand (strTrim s) = parseCommand s) := by
  refine ⟨by decide, by decide, by decide, by decide, by decide, by decide,
    by decide, by decide, ?_⟩
  intro s
  unfold parseCommand
  rw [strTrim_idem]


/-- A (truthy) cache hit short-circuits `generate` with no collaborator
call and no state change. -/
theorem generate_cacheHit (s : ServiceState) (t : ContentType) (v : String)
    (ac : Option String) (cfg : Bool) (so : Except String (List SearchResult))
    (ai : Except String String)
    (hv : s.context.generatedContent t = some v) (hv' : v ≠ "") :
    generate s t false ac cfg so ai =
      ({ content := v, success := true, error := none }, s, ⟨0, 0⟩) := by
  unfold generate
  simp [hv, optTruthy, hv']

/-- A fresh `generate` that returns success with non-empty text has
stored that text in the cache under its content type. -/
theorem generate_success_caches (s : ServiceState) (t : ContentType)
    (ac : Option String) (cfg : Bool) (so : Except String (List SearchResult))
    (ai : Except String String)
    (h1 : (generate s t false ac cfg so ai).1.success = true)
    (h2 : (generate s t false ac cfg so ai).1.content ≠ "") :
    (generate s t false ac cfg so ai).2.1.context.generatedContent t
      = some ((generate s t false ac cfg so ai).1.content) := by
  unfold generate sendPrompt performSearch at *
  rcases hc : s.context.generatedContent t with _ | v
  · simp only [hc] at h1 h2 ⊢
    rcases hsess : s.session <;> rcases hcfg : cfg <;> rcases hso : so with msg | rs <;>
      rcases hai : ai with m | raw <;>
      simp_all [optTruthy, cacheSet]
  · by_cases hv : v = ""
    · subst hv
      simp only [hc] at h1 h2 ⊢
      rcases hsess : s.session <;> rcases hcfg : cfg <;> rcases hso : so with msg | rs <;>
        rcases hai : ai with m | raw <;>
        simp_all [optTruthy, cacheSet]
    · simp [hc, optTruthy, hv]


/-- C3 counterexample: when the first fresh call fails (here the AI
round-trip throws), nothing is cached, so the SECOND
`generate(T, regenerate=false)` call issues the search and AI calls
again — the two-call property does not hold unconditionally. -/
theorem c3_counterexample :
    (generate baseState .script false none true (.ok []) (.error "boom")).1.success = false ∧
    (generate baseState .script false none true (.ok []) (.error "boom")).2.2 = ⟨1, 1⟩ ∧
    (generate (generate baseState .script false none true (.ok []) (.error "boom")).2.1
        .script false none true (.ok []) (.error "boom")).2.2 = ⟨1, 1⟩ := by
  decide

/-- C3 amended: a (necessarily non-empty) cache hit makes
`generate(T, regenerate=false)` return success with exactly the cached
text, zero collaborator calls and the state unchanged; consequently,
whenever a first `generate(T, false)` call returns success with
non-empty text, a second `generate(T, false)` call issues zero
additional calls, changes nothing, and returns the identical text. -/
theorem c3_cached_and_second_call :
    (∀ (s : ServiceState) (t : ContentType) (v : String) ac cfg so ai,
      s.context.generatedContent t = some v → v ≠ "" →
      generate s t false ac cfg so ai =
        ({ content := v, success := true, error := none }, s, ⟨0, 0⟩)) ∧
    (∀ (s : ServiceState) (t : ContentType) ac cfg so ai ac' cfg' so' ai',
      (generate s t false ac cfg so ai).1.success = true →
      (generate s t false ac cfg so ai).1.content ≠ "" →
      generate (generate s t false ac cfg so ai).2.1 t false ac' cfg' so' ai' =
        ({ content := (generate s t false ac cfg so ai).1.content,
           success := true, error := none },
         (generate s t false ac cfg so ai).2.1, ⟨0, 0⟩)) := by
  refine ⟨fun s t v ac cfg so ai hv hv' => generate_cacheHit s t v ac cfg so ai hv hv', ?_⟩
  intro s t ac cfg so ai ac' cfg' so' ai' h1 h2
  exact generate_cacheHit _ t _ ac' cfg' so' ai'
    (generate_success_caches s t ac cfg so ai h1 h2) h2

/-- Witness for C3 at a concrete cached state. -/
theorem c3_witness :
    generate cachedState .script false none true (.ok []) (.error "x") =
      ({ content := "## Old script", success := true, error := none }, cachedState, ⟨0, 0⟩) :=
  c3_cached_and_second_call.1 cachedState .script "## Old script" none true (.ok [])
    (.error "x") rfl (by decide)

/-- C6 counterexample: an AI response that cleans to the empty string
(here whitespace only) yields a SUCCESS result carrying empty text. -/
theorem c6_counterexample :
    (generate baseState .script false none false (.ok []) (.ok "   ")).1.success = true ∧
    (generate baseState .script false none false (.ok []) (.ok "   ")).1.content = "" := by
  decide

/-- The success/failure shape every result must have: a success carries
no error; a failure carries an error message and empty content. -/
def resultWellFormed (r : GenerationResult) : Bool :=
  if r.success then r.error.isNone else r.error.isSome && (r.content == "")

/-- C6 amended: every result of `generate`, `refine` or
`getMoreVariations` is either a success with no error field, or a
failure carrying an error message and empty content — never both.
(A success normally carries non-empty text, but an AI response whose
cleaned form is empty yields success with empty text, which is then not
cached.) -/
theorem c6_result_shape (s : ServiceState) (t : ContentType) (reg : Bool)
    (ac : Option String) (cfg : Bool) (so : Except String (List SearchResult))
    (ai : Except String String) (fb : String) :
    resultWellFormed (generate s t reg ac cfg so ai).1 = true ∧
    resultWellFormed (refine s t fb ai).1 = true ∧
    resultWellFormed (getMoreVariations s t ai).1 = true := by
  have hsend : ∀ (st : ServiceState) (prompt : String) (ct : Option ContentType)
      (a : Except String String), resultWellFormed (sendPrompt st prompt ct a).1 = true := by
    intro st prompt ct a
    unfold sendPrompt resultWellFormed
    rcases hsess : st.session <;> rcases ha : a with m | raw <;> simp
  refine ⟨?_, ?_, ?_⟩
  · unfold generate
    rcases hr : reg
    · rcases hc : optTruthy (s.context.generatedContent t)
      · simp only [Bool.false_eq_true, if_false, hc, Bool.false_and, Bool.not_false,
          Bool.and_true]
        exact hsend _ _ _ _
      · simp [hc, resultWellFormed]
    · simp only [if_true, Bool.not_true, Bool.and_false, Bool.false_eq_true, if_false]
      exact hsend _ _ _ _
  · unfold refine
    rcases hc : optTruthy (s.context.generatedContent t)
    · simp [hc, resultWellFormed]
    · simp only [hc, Bool.not_true, Bool.false_eq_true, if_false]
      exact hsend _ _ _ _
  · unfold getMoreVariations
    rcases hc : optTruthy (s.context.generatedContent t)
    · simp [hc, resultWellFormed]
    · simp only [hc, Bool.not_true, Bool.false_eq_true, if_false]
      exact hsend _ _ _ _


/-- C2: `setTopic` stores the new topic, empties the content cache and
discards the stored search results; the resulting state is independent
of whatever the cache held before (so nothing cached under the previous
topic can be returned), and a subsequent `generate(T, regenerate=false)`
behaves exactly like a fresh `generate(T, regenerate=true)`. -/
theorem c2_setTopic_isolates (s : ServiceState) (nt : String) :
    (setTopic s nt).context.topic = nt ∧
    (∀ t, (setTopic s nt).context.generatedContent t = none) ∧
    (setTopic s nt).context.searchResults = none ∧
    (∀ oldCache, setTopic
        { s with context := { s.context with generatedContent := oldCache } } nt
      = setTopic s nt) ∧
    (∀ t ac cfg so ai,
      (generate (setTopic s nt) t false ac cfg so ai).1 =
        (generate (setTopic s nt) t true ac cfg so ai).1) := by
  refine ⟨rfl, fun t => rfl, rfl, fun oldCache => rfl, ?_⟩
  intro t ac cfg so ai
  rcases s with ⟨⟨tp, pf, sr, gc⟩, mdl, sess⟩
  unfold generate performSearch sendPrompt setTopic
  rcases sess <;> rcases cfg <;> rcases so with m | rs <;> rcases ai with m2 | raw <;>
    simp [optTruthy, cacheClear, cacheDelete]

/-- C10: `generate(T, regenerate=true)` deletes the cached entry before
any collaborator call, so on failure the cache afterwards holds no entry
for `T` (the old text is lost, not restored); in general the entry
afterwards is either absent or the cleaned text of the fresh AI
response. -/
theorem c10_regenerate_not_atomic (s : ServiceState) (t : ContentType)
    (ac : Option String) (cfg : Bool) (so : Except String (List SearchResult))
    (ai : Except String String) :
    ((generate s t true ac cfg so ai).1.success = false →
      (generate s t true ac cfg so ai).2.1.context.generatedContent t = none) ∧
    ((generate s t true ac cfg so ai).2.1.context.generatedContent t = none ∨
      ∃ raw, ai = .ok raw ∧
        (generate s t true ac cfg so ai).2.1.context.generatedContent t
          = some (cleanContent raw)) := by
  rcases s with ⟨⟨tp, pf, sr, gc⟩, mdl, sess⟩
  unfold generate performSearch sendPrompt
  rcases sess <;> rcases cfg <;> rcases so with m | rs <;> rcases ai with m2 | raw <;>
    simp [optTruthy, cacheDelete, cacheSet] <;>
    by_cases hr : cleanContent raw = "" <;> simp [hr, cacheDelete, cacheSet]

/-- Witness for C10: regenerating a cached script entry while the AI call
fails leaves the cache with no script entry. -/
theorem c10_witness :
    (generate cachedState .script true none true (.ok []) (.error "x")
      ).2.1.context.generatedContent .script = none :=
  (c10_regenerate_not_atomic cachedState .script none true (.ok []) (.error "x")).1
    (by decide)

end ContentCurator
